import Mathlib

/-
  Verification of the 6DoF_arm Arduino firmware against its specification.

  The repository ships several firmware revisions:
  * the non-blocking revision (startServoMovement / updateServoMovement /
    updateSequencePlayback), embedded below under its source names;
  * the part_001 revision with prebuilt choreographies, whose
    processJointCommand calls the blocking moveServo directly; its
    definitions carry the suffix _v1;
  * the blocking revision with the SET_SPEED command, from which
    processSetSpeedCommand is embedded.

  Modelling conventions:
  * C int values are modelled as Int (all protocol values are small, far
    from any 16- or 32-bit boundary, so overflow does not matter here);
    unsigned long timestamps are modelled as Nat.
  * Serial output is modelled as the list of completed println lines each
    operation emits, in order.
  * Fixed C arrays are modelled as Lean lists of the same physical
    length (jointPositions: 6, sequences: 2, points: 15); reads use getD
    with the zero-initialised value, mirroring the zero-initialised
    globals of the firmware.
  * The delay(..) calls inside handlers block the single-threaded loop,
    so they have no observable state effect and are dropped.
-/

/-! ### Arduino string primitives (String::indexOf, substring, toInt, trim, toUpperCase) -/

def indexOfAux : List Char → Char → Nat → Option Nat
  | [], _, _ => none
  | c :: cs, ch, i => if c = ch then some i else indexOfAux cs ch (i + 1)

/-- Arduino String.indexOf: first index of a character, -1 when absent. -/
def indexOfChar (l : List Char) (ch : Char) : Int :=
  match indexOfAux l ch 0 with
  | some i => (i : Int)
  | none => -1

/-- Arduino String.indexOf with a start position. -/
def indexOfCharFrom (l : List Char) (ch : Char) (start : Nat) : Int :=
  match indexOfAux (l.drop start) ch 0 with
  | some i => ((i + start : Nat) : Int)
  | none => -1

/-- Arduino String.substring(from, to): characters in [from, to). -/
def subChars (l : List Char) (a b : Nat) : List Char :=
  (l.drop a).take (b - a)

def atolDigits : List Char → Int → Int
  | c :: cs, acc => if c.isDigit then atolDigits cs (acc * 10 + ((c.toNat : Int) - ('0'.toNat : Int))) else acc
  | [], acc => acc

/-- Arduino String.toInt (atol): skip leading whitespace, optional sign,
then the longest run of leading digits; 0 when there is none. -/
def toIntArduino (l : List Char) : Int :=
  match l.dropWhile Char.isWhitespace with
  | '-' :: rest => - atolDigits rest 0
  | '+' :: rest => atolDigits rest 0
  | rest => atolDigits rest 0

/-- Arduino String.trim. -/
def trimChars (l : List Char) : List Char :=
  ((l.dropWhile Char.isWhitespace).reverse.dropWhile Char.isWhitespace).reverse

/-- Arduino String.toUpperCase (ASCII). -/
def upperChars (l : List Char) : List Char :=
  l.map Char.toUpper

def startsWithChars (l : List Char) (p : String) : Bool :=
  p.data.isPrefixOf l

/-! ### Configuration constants (config.h) -/

def JOINT_MIN : List Int := [0, 30, 0, 0, 0, 90]

def JOINT_MAX : List Int := [180, 150, 180, 180, 180, 180]

def HOME_POSITIONS : List Int := [92, 85, 45, 108, 80, 152]

def MOVEMENT_INTERVAL : Nat := 25

def MAX_SEQUENCES : Nat := 2

def MAX_SEQUENCE_LENGTH : Nat := 15

/-! ### Data model (the global state of the firmware) -/

structure ServoMovement where
  active : Bool
  jointIndex : Int
  targetAngle : Int
  currentAngle : Int
  stepDirection : Int
deriving DecidableEq, Repr

structure SequencePoint where
  joints : List Int
  delay_ms : Int
deriving DecidableEq, Repr

structure Sequence where
  name : String
  points : List SequencePoint
  length : Int
  valid : Bool
deriving DecidableEq, Repr

structure SequencePlayback where
  active : Bool
  sequenceIndex : Int
  currentStep : Int
  lastStepTime : Nat
deriving DecidableEq, Repr

structure ArmState where
  jointPositions : List Int
  emergencyStop : Bool
  movementInProgress : Bool
  lastMovementTime : Nat
  currentMovement : ServoMovement
  sequences : List Sequence
  isRecording : Bool
  currentRecordingSequence : Int
  currentPlayback : SequencePlayback
deriving DecidableEq, Repr

/-- A zero-initialised SequencePoint (the firmware globals are zero-initialised). -/
def blankPoint : SequencePoint :=
  { joints := List.replicate 6 0, delay_ms := 0 }

/-- A zero-initialised Sequence slot. -/
def blankSequence : Sequence :=
  { name := "", points := List.replicate MAX_SEQUENCE_LENGTH blankPoint, length := 0, valid := false }

def getSeq (s : ArmState) (i : Int) : Sequence :=
  s.sequences.getD i.toNat blankSequence

/-- The state right after setup(): sequences zero-initialised, servos homed. -/
def initialState : ArmState :=
  { jointPositions := HOME_POSITIONS
    emergencyStop := false
    movementInProgress := false
    lastMovementTime := 0
    currentMovement := { active := false, jointIndex := 0, targetAngle := 0, currentAngle := 0, stepDirection := 0 }
    sequences := List.replicate MAX_SEQUENCES blankSequence
    isRecording := false
    currentRecordingSequence := -1
    currentPlayback := { active := false, sequenceIndex := -1, currentStep := 0, lastStepTime := 0 } }

/-! ### Non-blocking firmware: motion engine -/

/-- sendStatus of the non-blocking revision (status plus engine flags), as one line. -/
def statusLine (s : ArmState) : String :=
  "OK:" ++
    String.intercalate "," ((List.range 6).map (fun i =>
      "J" ++ toString (i + 1) ++ ":" ++ toString (s.jointPositions.getD i 0))) ++
    "|MOVING:" ++ (if s.currentMovement.active then "1" else "0") ++
    "|RECORDING:" ++ (if s.isRecording then "1" else "0") ++
    "|PLAYBACK:" ++ (if s.currentPlayback.active then "1" else "0")

/-- startServoMovement of the non-blocking revision: validates the angle
against the joint limits and installs the movement state. -/
def startServoMovement (s : ArmState) (jointIndex targetAngle : Int) : ArmState × List String :=
  if s.emergencyStop ∨ jointIndex < 0 ∨ 6 ≤ jointIndex then (s, [])
  else if targetAngle < JOINT_MIN.getD jointIndex.toNat 0 ∨ JOINT_MAX.getD jointIndex.toNat 0 < targetAngle then
    (s, ["ERROR:Joint " ++ toString (jointIndex + 1) ++ " angle out of range (" ++
          toString (JOINT_MIN.getD jointIndex.toNat 0) ++ "-" ++
          toString (JOINT_MAX.getD jointIndex.toNat 0) ++ ")"])
  else
    ({ s with
        currentMovement :=
          { active := true
            jointIndex := jointIndex
            targetAngle := targetAngle
            currentAngle := s.jointPositions.getD jointIndex.toNat 0
            stepDirection := if s.jointPositions.getD jointIndex.toNat 0 < targetAngle then 1 else -1 }
        movementInProgress := true }, [])

/-- updateServoMovement of the non-blocking revision: one scheduler tick of
the motion engine at the given time. -/
def updateServoMovement (s : ArmState) (currentTime : Nat) : ArmState × List String :=
  if ¬s.currentMovement.active ∨ s.emergencyStop then
    if s.emergencyStop then
      ({ s with currentMovement.active := false, movementInProgress := false },
        ["ERROR:Emergency stop active"])
    else (s, [])
  else if MOVEMENT_INTERVAL ≤ currentTime - s.lastMovementTime then
    if s.currentMovement.jointIndex < 0 ∨ 6 ≤ s.currentMovement.jointIndex then (s, [])
    else
      let jp := s.jointPositions.set s.currentMovement.jointIndex.toNat s.currentMovement.currentAngle
      if s.currentMovement.currentAngle = s.currentMovement.targetAngle then
        ({ s with jointPositions := jp, currentMovement.active := false,
                  movementInProgress := false, lastMovementTime := currentTime }, [])
      else
        ({ s with jointPositions := jp,
                  currentMovement.currentAngle := s.currentMovement.currentAngle + s.currentMovement.stepDirection,
                  lastMovementTime := currentTime }, [])
  else (s, [])

/-- setupHome: writes the home pose joint by joint. -/
def setupHome (s : ArmState) : ArmState :=
  { s with jointPositions :=
      (List.range 6).foldl (fun jp i => jp.set i (HOME_POSITIONS.getD i 0)) s.jointPositions }

/-! ### Non-blocking firmware: sequence store and playback engine -/

def createSequence (s : ArmState) (index : Int) (name : List Char) : ArmState × Bool :=
  if index < 0 ∨ (MAX_SEQUENCES : Int) ≤ index then (s, false)
  else
    let seq := getSeq s index
    let seq' := { seq with name := String.mk (name.take (16 - 1)), length := 0, valid := true }
    ({ s with sequences := s.sequences.set index.toNat seq' }, true)

def addSequencePoint (s : ArmState) (sequenceIndex delay_ms : Int) : ArmState × Bool :=
  if sequenceIndex < 0 ∨ (MAX_SEQUENCES : Int) ≤ sequenceIndex then (s, false)
  else
    let seq := getSeq s sequenceIndex
    if ¬seq.valid then (s, false)
    else if (MAX_SEQUENCE_LENGTH : Int) ≤ seq.length then (s, false)
    else
      let pt : SequencePoint :=
        { joints := (List.range 6).map (fun i => s.jointPositions.getD i 0), delay_ms := delay_ms }
      let seq' := { seq with points := seq.points.set seq.length.toNat pt, length := seq.length + 1 }
      ({ s with sequences := s.sequences.set sequenceIndex.toNat seq' }, true)

def startSequencePlayback (s : ArmState) (sequenceIndex : Int) (now : Nat) : ArmState × Bool :=
  if sequenceIndex < 0 ∨ (MAX_SEQUENCES : Int) ≤ sequenceIndex then (s, false)
  else if ¬(getSeq s sequenceIndex).valid then (s, false)
  else if (getSeq s sequenceIndex).length = 0 then (s, false)
  else if s.currentMovement.active ∨ s.currentPlayback.active then (s, false)
  else
    ({ s with currentPlayback :=
        { active := true, sequenceIndex := sequenceIndex, currentStep := 0, lastStepTime := now } }, true)

/-- updateSequencePlayback of the non-blocking revision: one playback tick.
Note that the source reads points[currentStep].delay_ms before the
completion check. -/
def updateSequencePlayback (s : ArmState) (now : Nat) : ArmState × List String :=
  if ¬s.currentPlayback.active ∨ s.emergencyStop then
    if s.emergencyStop then
      ({ s with currentPlayback.active := false }, ["ERROR:Sequence playback stopped by emergency"])
    else (s, [])
  else if s.currentMovement.active then (s, [])
  else
    let seq := getSeq s s.currentPlayback.sequenceIndex
    let delayTime := (seq.points.getD s.currentPlayback.currentStep.toNat blankPoint).delay_ms
    if delayTime ≤ ((now - s.currentPlayback.lastStepTime : Nat) : Int) then
      if seq.length ≤ s.currentPlayback.currentStep then
        let s' := { s with currentPlayback.active := false }
        (s', ["OK:Sequence " ++ toString s.currentPlayback.sequenceIndex ++ " completed", statusLine s'])
      else
        let pt := seq.points.getD s.currentPlayback.currentStep.toNat blankPoint
        ({ s with
            jointPositions := (List.range 6).foldl (fun jp j => jp.set j (pt.joints.getD j 0)) s.jointPositions,
            currentPlayback.lastStepTime := now,
            currentPlayback.currentStep := s.currentPlayback.currentStep + 1 }, [])
    else (s, [])

/-- The index of points[..] whose delay_ms field a playback tick reads,
none when the tick returns before reaching the read. -/
def playbackDelayReadIndex (s : ArmState) : Option Int :=
  if ¬s.currentPlayback.active ∨ s.emergencyStop then none
  else if s.currentMovement.active then none
  else some s.currentPlayback.currentStep

def listSequences (s : ArmState) : List String :=
  "SEQUENCE:" ::
    ((List.range MAX_SEQUENCES).filter (fun i => (s.sequences.getD i blankSequence).valid)).map
      (fun i => toString i ++ ":" ++ (s.sequences.getD i blankSequence).name)

/-! ### Non-blocking firmware: command dispatcher -/

/-- The validation part of processJointCommand (format, joint digit, numeric
angle, joint range), returning the parsed 0-based joint index and angle. -/
def parseJointCommand (command : List Char) : Except String (Int × Int) :=
  let colonIndex := indexOfChar command ':'
  if colonIndex = -1 ∨ colonIndex = 1 then
    .error "ERROR:Invalid joint command format. Use J1:90 format"
  else
    let jointStr := subChars command 1 colonIndex.toNat
    let angleStr := command.drop (colonIndex.toNat + 1)
    if ¬(jointStr.length = 1 ∧ (jointStr.getD 0 ' ').isDigit) then
      .error "ERROR:Invalid joint number. Use 1-6"
    else if angleStr.length = 0 then
      .error "ERROR:Missing angle value"
    else if ¬(angleStr.all Char.isDigit) then
      .error "ERROR:Angle must be numeric"
    else
      let jointIndex := toIntArduino jointStr - 1
      let targetAngle := toIntArduino angleStr
      if jointIndex < 0 ∨ 6 ≤ jointIndex then
        .error "ERROR:Joint number must be 1-6"
      else
        .ok (jointIndex, targetAngle)

/-- processJointCommand of the non-blocking revision. -/
def processJointCommand (s : ArmState) (command : List Char) : ArmState × List String :=
  match parseJointCommand command with
  | .error e => (s, [e])
  | .ok (jointIndex, targetAngle) =>
    if s.currentMovement.active ∧ s.currentMovement.jointIndex = jointIndex then
      (s, ["ERROR:Joint already moving, wait for completion"])
    else
      let r := startServoMovement s jointIndex targetAngle
      let s2 :=
        if r.1.isRecording ∧ 0 ≤ r.1.currentRecordingSequence then
          (addSequencePoint r.1 r.1.currentRecordingSequence (MOVEMENT_INTERVAL : Int)).1
        else r.1
      (s2, r.2 ++ [statusLine s2])

def processRecordStartCommand (s : ArmState) (command : List Char) : ArmState × List String :=
  let firstColon := indexOfChar command ':'
  let secondColon := indexOfCharFrom command ':' (firstColon + 1).toNat
  if firstColon = -1 ∨ secondColon = -1 then
    (s, ["ERROR:Invalid RECORD_START format"])
  else
    let indexStr := subChars command (firstColon.toNat + 1) secondColon.toNat
    let nameStr := command.drop (secondColon.toNat + 1)
    let sequenceIndex := toIntArduino indexStr
    if sequenceIndex < 0 ∨ (MAX_SEQUENCES : Int) ≤ sequenceIndex then
      (s, ["ERROR:Invalid sequence index"])
    else
      let r := createSequence s sequenceIndex nameStr
      if r.2 then
        ({ r.1 with isRecording := true, currentRecordingSequence := sequenceIndex },
          ["OK:Recording started for sequence " ++ toString sequenceIndex])
      else (r.1, ["ERROR:Failed to create sequence"])

def processPlaySequenceCommand (s : ArmState) (command : List Char) (now : Nat) : ArmState × List String :=
  let colonIndex := indexOfChar command ':'
  if colonIndex = -1 then
    (s, ["ERROR:Invalid PLAY_SEQUENCE format. Use PLAY_SEQUENCE:0"])
  else
    let indexStr := command.drop (colonIndex.toNat + 1)
    if indexStr.length = 0 then (s, ["ERROR:Missing sequence index"])
    else if ¬(indexStr.all Char.isDigit) then (s, ["ERROR:Sequence index must be numeric"])
    else
      let sequenceIndex := toIntArduino indexStr
      let r := startSequencePlayback s sequenceIndex now
      if r.2 then (r.1, ["OK:Started playing sequence " ++ toString sequenceIndex])
      else (r.1, ["ERROR:Failed to start sequence playback (movement in progress or invalid sequence)"])

def processDeleteSequenceCommand (s : ArmState) (command : List Char) : ArmState × List String :=
  let colonIndex := indexOfChar command ':'
  if colonIndex = -1 then (s, ["ERROR:Invalid DELETE_SEQUENCE format"])
  else
    let indexStr := command.drop (colonIndex.toNat + 1)
    let sequenceIndex := toIntArduino indexStr
    if sequenceIndex < 0 ∨ (MAX_SEQUENCES : Int) ≤ sequenceIndex then
      (s, ["ERROR:Invalid sequence index"])
    else
      let seq := getSeq s sequenceIndex
      let seq' := { seq with valid := false, length := 0 }
      ({ s with sequences := s.sequences.set sequenceIndex.toNat seq' },
        ["OK:Sequence " ++ toString sequenceIndex ++ " deleted"])

/-- processCommand of the non-blocking revision.  The STOP branch sets
emergencyStop, cancels movement and recording, reports, then clears the
flag again before sending the status, so its net state has the flag
clear; now is the millis() value used by PLAY_SEQUENCE. -/
def processCommand (s : ArmState) (input : String) (now : Nat) : ArmState × List String :=
  let command := upperChars (trimChars input.data)
  if command.length = 0 then (s, [])
  else if startsWithChars command "J" then processJointCommand s command
  else if command = "HOME".data then
    if ¬s.movementInProgress then
      let sH := setupHome s
      (sH, [statusLine sH])
    else (s, ["ERROR:Movement in progress, cannot go home"])
  else if command = "STOP".data then
    let s' := { s with emergencyStop := false, currentMovement.active := false,
                       movementInProgress := false, isRecording := false }
    (s', ["ERROR:Emergency stop activated", statusLine s'])
  else if command = "STATUS".data then (s, [statusLine s])
  else if startsWithChars command "RECORD_START" then processRecordStartCommand s command
  else if command = "RECORD_STOP".data then
    ({ s with isRecording := false }, ["OK:Recording stopped"])
  else if startsWithChars command "PLAY_SEQUENCE" then
    if ¬s.movementInProgress then processPlaySequenceCommand s command now
    else (s, ["ERROR:Movement in progress, cannot play sequence"])
  else if command = "LIST_SEQUENCES".data then (s, listSequences s)
  else if startsWithChars command "DELETE_SEQUENCE" then processDeleteSequenceCommand s command
  else (s, ["ERROR:Unknown command: " ++ String.mk command])

/-! ### part_001 revision: blocking joint command path (no limit check)

The part_001 revision of the firmware dispatches J commands to the
blocking moveServo via its own processJointCommand; unlike the other
revisions it performs no JOINT_MIN/JOINT_MAX validation on that path. -/

structure ArmStateV1 where
  jointPositions : List Int
  emergencyStop : Bool
  movementInProgress : Bool
  currentMovement : ServoMovement
  sequences : List Sequence
  isRecording : Bool
  currentRecordingSequence : Int
deriving DecidableEq, Repr

/-- MOVE_SPEED of config.h, the per-step delay used by part_001. -/
def MOVE_SPEED : Int := 50

def initialStateV1 : ArmStateV1 :=
  { jointPositions := HOME_POSITIONS
    emergencyStop := false
    movementInProgress := false
    currentMovement := { active := false, jointIndex := 0, targetAngle := 0, currentAngle := 0, stepDirection := 0 }
    sequences := List.replicate MAX_SEQUENCES blankSequence
    isRecording := false
    currentRecordingSequence := -1 }

/-- moveServo of part_001: blocking sweep; under a clear interlock its net
state effect is writing the target angle, with no range validation. -/
def moveServo_v1 (s : ArmStateV1) (jointIndex targetAngle : Int) : ArmStateV1 × List String :=
  if s.emergencyStop then (s, ["ERROR:Emergency stop active"])
  else if jointIndex < 0 ∨ 6 ≤ jointIndex then (s, [])
  else ({ s with jointPositions := s.jointPositions.set jointIndex.toNat targetAngle }, [])

/-- sendStatus of part_001 (no engine flags). -/
def statusLine_v1 (s : ArmStateV1) : String :=
  "OK:" ++
    String.intercalate "," ((List.range 6).map (fun i =>
      "J" ++ toString (i + 1) ++ ":" ++ toString (s.jointPositions.getD i 0)))

def addSequencePoint_v1 (s : ArmStateV1) (sequenceIndex delay_ms : Int) : ArmStateV1 × Bool :=
  if sequenceIndex < 0 ∨ (MAX_SEQUENCES : Int) ≤ sequenceIndex then (s, false)
  else
    let seq := s.sequences.getD sequenceIndex.toNat blankSequence
    if ¬seq.valid then (s, false)
    else if (MAX_SEQUENCE_LENGTH : Int) ≤ seq.length then (s, false)
    else
      let pt : SequencePoint :=
        { joints := (List.range 6).map (fun i => s.jointPositions.getD i 0), delay_ms := delay_ms }
      let seq' := { seq with points := seq.points.set seq.length.toNat pt, length := seq.length + 1 }
      ({ s with sequences := s.sequences.set sequenceIndex.toNat seq' }, true)

/-- processJointCommand of part_001: same parsing and busy check as the
other revisions, but it then calls moveServo directly, without any
joint-limit validation. -/
def processJointCommand_v1 (s : ArmStateV1) (command : List Char) : ArmStateV1 × List String :=
  match parseJointCommand command with
  | .error e => (s, [e])
  | .ok (jointIndex, targetAngle) =>
    if s.currentMovement.active ∧ s.currentMovement.jointIndex = jointIndex then
      (s, ["ERROR:Joint already moving, wait for completion"])
    else
      let r := moveServo_v1 s jointIndex targetAngle
      let s2 :=
        if r.1.isRecording ∧ 0 ≤ r.1.currentRecordingSequence then
          (addSequencePoint_v1 r.1 r.1.currentRecordingSequence MOVE_SPEED).1
        else r.1
      (s2, r.2 ++ [statusLine_v1 s2])

/-! ### Blocking revision: SET_SPEED command -/

/-- processSetSpeedCommand of the blocking revision: takes the current
MOVE_SPEED value and the command, returns the new MOVE_SPEED and the
response lines. -/
def processSetSpeedCommand (speed : Int) (command : List Char) : Int × List String :=
  let colonIndex := indexOfChar command ':'
  if colonIndex = -1 then (speed, ["ERROR:Invalid SET_SPEED format. Use SET_SPEED:15"])
  else
    let speedStr := command.drop (colonIndex.toNat + 1)
    let newSpeed := toIntArduino speedStr
    if newSpeed < 5 ∨ 200 < newSpeed then
      (speed, ["ERROR:Speed must be between 5 and 200 ms"])
    else
      (newSpeed, ["OK:Movement speed set to " ++ toString newSpeed ++ " ms"])

/-! ### Tick iteration helpers -/

/-- Iterated qualifying motion ticks: each call to updateServoMovement is
made exactly MOVEMENT_INTERVAL after the last recorded step time, so the
interval test succeeds. -/
def runMove (s : ArmState) : Nat → ArmState
  | 0 => s
  | k + 1 =>
    let s' := runMove s k
    (updateServoMovement s' (s'.lastMovementTime + MOVEMENT_INTERVAL)).1

/-- One qualifying playback tick: updateSequencePlayback called exactly when
the delay of the current point has elapsed. -/
def qualTick (s : ArmState) : ArmState × List String :=
  updateSequencePlayback s
    (s.currentPlayback.lastStepTime +
      ((getSeq s s.currentPlayback.sequenceIndex).points.getD
        s.currentPlayback.currentStep.toNat blankPoint).delay_ms.toNat)

/-- Iterated qualifying playback ticks. -/
def runPlay (s : ArmState) : Nat → ArmState
  | 0 => s
  | k + 1 => (qualTick (runPlay s k)).1

/-! ### Concrete states used by witnesses and counterexamples -/

def demoPoint : SequencePoint :=
  { joints := [92, 85, 45, 108, 80, 152], delay_ms := 25 }

/-- A valid one-point sequence, as produced by RECORD_START plus one
recorded joint move. -/
def demoSeq (nm : String) : Sequence :=
  { name := nm, points := (List.replicate MAX_SEQUENCE_LENGTH blankPoint).set 0 demoPoint,
    length := 1, valid := true }

def demoState : ArmState :=
  { initialState with sequences := [demoSeq "A", blankSequence] }

def twoValidState : ArmState :=
  { initialState with sequences := [demoSeq "A", demoSeq "B"] }

/-- demoState with playback of slot 0 started at time 0. -/
def playState : ArmState :=
  (startSequencePlayback demoState 0 0).1

/-- A state with an active motion on joint 0. -/
def busyState : ArmState :=
  { initialState with
      currentMovement := { active := true, jointIndex := 0, targetAngle := 100, currentAngle := 95, stepDirection := 1 }
      movementInProgress := true }

/-! ### Predicates used by the theorems -/

/-- Invariant relating the playback cursor to the playing sequence. -/
def PlaybackInv (s : ArmState) : Prop :=
  s.currentPlayback.active = true →
    0 ≤ s.currentPlayback.currentStep ∧
    s.currentPlayback.currentStep ≤ (getSeq s s.currentPlayback.sequenceIndex).length

instance (s : ArmState) : Decidable (PlaybackInv s) := by
  unfold PlaybackInv
  infer_instance

/-- A single-joint motion in flight toward angle a on joint j with step d. -/
def Inflight (s : ArmState) (j a d : Int) : Prop :=
  s.currentMovement.active = true ∧ s.currentMovement.jointIndex = j ∧
  s.currentMovement.targetAngle = a ∧ s.currentMovement.stepDirection = d ∧
  s.emergencyStop = false ∧ s.jointPositions.length = 6

set_option maxRecDepth 8000

/-! ### Helper lemmas -/

lemma estop_startServoMovement (s : ArmState) (j a : Int) :
    (startServoMovement s j a).1.emergencyStop = s.emergencyStop := by
  unfold startServoMovement
  split_ifs <;> rfl

lemma estop_addSequencePoint (s : ArmState) (i d : Int) :
    (addSequencePoint s i d).1.emergencyStop = s.emergencyStop := by
  unfold addSequencePoint
  dsimp only
  split_ifs <;> rfl

lemma estop_processJointCommand (s : ArmState) (cmd : List Char) :
    (processJointCommand s cmd).1.emergencyStop = s.emergencyStop := by
  unfold processJointCommand
  cases hp : parseJointCommand cmd with
  | error e => rfl
  | ok p =>
    obtain ⟨j, a⟩ := p
    dsimp only
    split_ifs with h1 h2
    · rfl
    · rw [estop_addSequencePoint, estop_startServoMovement]
    · rw [estop_startServoMovement]

lemma estop_createSequence (s : ArmState) (i : Int) (nm : List Char) :
    (createSequence s i nm).1.emergencyStop = s.emergencyStop := by
  unfold createSequence
  dsimp only
  split_ifs <;> rfl

lemma estop_processRecordStartCommand (s : ArmState) (cmd : List Char) :
    (processRecordStartCommand s cmd).1.emergencyStop = s.emergencyStop := by
  unfold processRecordStartCommand
  dsimp only
  split_ifs <;> first | rfl | rw [estop_createSequence]

lemma estop_startSequencePlayback (s : ArmState) (i : Int) (now : Nat) :
    (startSequencePlayback s i now).1.emergencyStop = s.emergencyStop := by
  unfold startSequencePlayback
  split_ifs <;> rfl

lemma estop_processPlaySequenceCommand (s : ArmState) (cmd : List Char) (now : Nat) :
    (processPlaySequenceCommand s cmd now).1.emergencyStop = s.emergencyStop := by
  unfold processPlaySequenceCommand
  dsimp only
  split_ifs <;> first | rfl | rw [estop_startSequencePlayback]

lemma estop_processDeleteSequenceCommand (s : ArmState) (cmd : List Char) :
    (processDeleteSequenceCommand s cmd).1.emergencyStop = s.emergencyStop := by
  unfold processDeleteSequenceCommand
  dsimp only
  split_ifs <;> rfl

lemma getD_set_self (l : List Int) (n : Nat) (v d : Int) (h : n < l.length) :
    (l.set n v).getD n d = v := by
  rw [List.getD_eq_getElem _ _ (by simpa using h)]
  simp [List.getElem_set]

lemma applyPose_eq (jp pose : List Int) (h1 : jp.length = 6) (h2 : pose.length = 6) :
    (List.range 6).foldl (fun l j => l.set j (pose.getD j 0)) jp = pose := by
  rcases jp with _ | ⟨a0, _ | ⟨a1, _ | ⟨a2, _ | ⟨a3, _ | ⟨a4, _ | ⟨a5, _ | ⟨a6, jp⟩⟩⟩⟩⟩⟩⟩ <;> simp at h1
  rcases pose with _ | ⟨b0, _ | ⟨b1, _ | ⟨b2, _ | ⟨b3, _ | ⟨b4, _ | ⟨b5, _ | ⟨b6, pose⟩⟩⟩⟩⟩⟩⟩ <;> simp at h2
  rfl

lemma getSeq_congr (s t : ArmState) (k : Int) (h : s.sequences = t.sequences) :
    getSeq s k = getSeq t k := by
  unfold getSeq
  rw [h]

lemma qualTick_apply (s : ArmState) (k : Int) (i : Nat) (seq : Sequence)
    (hseq : getSeq s k = seq)
    (hact : s.currentPlayback.active = true)
    (hidx : s.currentPlayback.sequenceIndex = k)
    (hstep : s.currentPlayback.currentStep = (i : Int))
    (hmov : s.currentMovement.active = false)
    (hes : s.emergencyStop = false)
    (hi : (i : Int) < seq.length)
    (hjp : s.jointPositions.length = 6)
    (hpt : (seq.points.getD i blankPoint).joints.length = 6) :
    (qualTick s).1 = { s with
        jointPositions := (seq.points.getD i blankPoint).joints,
        currentPlayback.lastStepTime :=
          s.currentPlayback.lastStepTime + ((seq.points.getD i blankPoint).delay_ms).toNat,
        currentPlayback.currentStep := s.currentPlayback.currentStep + 1 } ∧
      (qualTick s).2 = [] := by
  unfold qualTick updateSequencePlayback
  rw [hidx, hseq, hstep]
  simp only [Int.toNat_natCast]
  rw [if_neg (by simp [hact, hes])]
  rw [if_neg (by simp [hmov])]
  rw [if_pos (by rw [Nat.add_sub_cancel_left]; exact Int.self_le_toNat _)]
  rw [if_neg (by omega)]
  rw [applyPose_eq _ _ hjp hpt]
  exact ⟨rfl, rfl⟩

lemma qualTick_complete (s : ArmState) (k : Int) (seq : Sequence) (n : Nat)
    (hseq : getSeq s k = seq)
    (hact : s.currentPlayback.active = true)
    (hidx : s.currentPlayback.sequenceIndex = k)
    (hstep : s.currentPlayback.currentStep = (n : Int))
    (hmov : s.currentMovement.active = false)
    (hes : s.emergencyStop = false)
    (hlen : seq.length = (n : Int)) :
    (qualTick s).1 = { s with currentPlayback.active := false } ∧
    (qualTick s).2 = ["OK:Sequence " ++ toString k ++ " completed",
      statusLine { s with currentPlayback.active := false }] := by
  unfold qualTick updateSequencePlayback
  rw [hidx, hseq, hstep]
  simp only [Int.toNat_natCast]
  rw [if_neg (by simp [hact, hes])]
  rw [if_neg (by simp [hmov])]
  rw [if_pos (by rw [Nat.add_sub_cancel_left]; exact Int.self_le_toNat _)]
  rw [if_pos (by rw [hlen])]
  exact ⟨rfl, rfl⟩

lemma tick_stepping (s : ArmState) (j a d : Int)
    (h : Inflight s j a d) (hj0 : 0 ≤ j) (hj6 : j < 6)
    (hne : s.currentMovement.currentAngle ≠ a) :
    (updateServoMovement s (s.lastMovementTime + MOVEMENT_INTERVAL)).1 =
      { s with jointPositions := s.jointPositions.set j.toNat s.currentMovement.currentAngle,
               currentMovement.currentAngle := s.currentMovement.currentAngle + d,
               lastMovementTime := s.lastMovementTime + MOVEMENT_INTERVAL } := by
  obtain ⟨ha, hj, hta, hsd, hes, hlen⟩ := h
  unfold updateServoMovement
  rw [if_neg (by simp [ha, hes])]
  rw [if_pos (by simp)]
  rw [if_neg (by rw [hj]; omega)]
  dsimp only
  rw [if_neg (by rw [hta]; exact hne)]
  rw [hj, hsd]

lemma tick_reach (s : ArmState) (j a d : Int)
    (h : Inflight s j a d) (hj0 : 0 ≤ j) (hj6 : j < 6)
    (hc : s.currentMovement.currentAngle = a) :
    (updateServoMovement s (s.lastMovementTime + MOVEMENT_INTERVAL)).1 =
      { s with jointPositions := s.jointPositions.set j.toNat s.currentMovement.currentAngle,
               currentMovement.active := false, movementInProgress := false,
               lastMovementTime := s.lastMovementTime + MOVEMENT_INTERVAL } := by
  obtain ⟨ha, hj, hta, hsd, hes, hlen⟩ := h
  unfold updateServoMovement
  rw [if_neg (by simp [ha, hes])]
  rw [if_pos (by simp)]
  rw [if_neg (by rw [hj]; omega)]
  dsimp only
  rw [if_pos (by rw [hta]; exact hc)]
  rw [hj]

lemma runMove_inv (s0 : ArmState) (j a d start : Int) (n : Nat)
    (h0 : Inflight s0 j a d) (hj0 : 0 ≤ j) (hj6 : j < 6)
    (hca : s0.currentMovement.currentAngle = start)
    (hd : d = 1 ∨ d = -1) (hna : a = start + d * n) :
    ∀ k : Nat, k ≤ n →
      Inflight (runMove s0 k) j a d ∧
      (runMove s0 k).currentMovement.currentAngle = start + d * k ∧
      (runMove s0 k).jointPositions =
        (if k = 0 then s0.jointPositions
         else s0.jointPositions.set j.toNat (start + d * ((k : Int) - 1))) := by
  intro k
  induction k with
  | zero =>
    intro _
    refine ⟨h0, by simpa [runMove] using hca, by simp [runMove]⟩
  | succ m ih =>
    intro hk
    obtain ⟨hin, hcur, hjp⟩ := ih (by omega)
    have hne : (runMove s0 m).currentMovement.currentAngle ≠ a := by
      rw [hcur, hna]
      have hmn : (m : Int) < (n : Int) := by exact_mod_cast Nat.lt_of_succ_le hk
      rcases hd with rfl | rfl <;> intro hEq <;> omega
    have hstep := tick_stepping (runMove s0 m) j a d hin hj0 hj6 hne
    have hrm : runMove s0 (m + 1) =
        (updateServoMovement (runMove s0 m) ((runMove s0 m).lastMovementTime + MOVEMENT_INTERVAL)).1 := rfl
    rw [hrm, hstep]
    obtain ⟨ha', hj', hta', hsd', hes', hlen'⟩ := hin
    refine ⟨⟨ha', hj', hta', hsd', hes', by simpa using hlen'⟩, ?_, ?_⟩
    · show (runMove s0 m).currentMovement.currentAngle + d = start + d * ((m : Nat) + 1 : Nat)
      rw [hcur]
      push_cast
      ring
    · show (runMove s0 m).jointPositions.set j.toNat (runMove s0 m).currentMovement.currentAngle = _
      rw [hjp, hcur]
      rcases Nat.eq_zero_or_pos m with rfl | hm
      · simp
      · rw [if_neg (by omega), if_neg (by omega), List.set_set]
        congr 1
        push_cast
        ring

lemma runPlay_inv (s0 : ArmState) (k : Int) (seq : Sequence) (n : Nat)
    (hseq0 : getSeq s0 k = seq)
    (hact : s0.currentPlayback.active = true)
    (hidx : s0.currentPlayback.sequenceIndex = k)
    (hstep0 : s0.currentPlayback.currentStep = 0)
    (hmov : s0.currentMovement.active = false)
    (hes : s0.emergencyStop = false)
    (hlen : seq.length = (n : Int))
    (hjp : s0.jointPositions.length = 6)
    (hpts : ∀ m : Nat, m < n → (seq.points.getD m blankPoint).joints.length = 6) :
    ∀ i : Nat, i ≤ n →
      (runPlay s0 i).currentPlayback.active = true ∧
      (runPlay s0 i).currentPlayback.sequenceIndex = k ∧
      (runPlay s0 i).currentPlayback.currentStep = (i : Int) ∧
      (runPlay s0 i).currentMovement.active = false ∧
      (runPlay s0 i).emergencyStop = false ∧
      (runPlay s0 i).sequences = s0.sequences ∧
      (runPlay s0 i).jointPositions =
        (if i = 0 then s0.jointPositions else (seq.points.getD (i - 1) blankPoint).joints) := by
  intro i
  induction i with
  | zero =>
    intro _
    exact ⟨hact, hidx, by simpa [runPlay] using hstep0, hmov, hes, rfl, by simp [runPlay]⟩
  | succ m ih =>
    intro hk
    obtain ⟨ha', hi', hc', hm', he', hs', hj'⟩ := ih (by omega)
    have hseq' : getSeq (runPlay s0 m) k = seq := by
      rw [getSeq_congr _ s0 k hs', hseq0]
    have hjlen : (runPlay s0 m).jointPositions.length = 6 := by
      rw [hj']
      split_ifs
      · exact hjp
      · exact hpts (m - 1) (by omega)
    have happ := qualTick_apply (runPlay s0 m) k m seq hseq' ha' hi' hc' hm' he'
      (by omega) hjlen (hpts m (by omega))
    have hrm : runPlay s0 (m + 1) = (qualTick (runPlay s0 m)).1 := rfl
    rw [hrm, happ.1]
    refine ⟨ha', hi', ?_, hm', he', hs', ?_⟩
    · show (runPlay s0 m).currentPlayback.currentStep + 1 = ((m + 1 : Nat) : Int)
      rw [hc']
      push_cast
      ring
    · simp

/-! ### Claim theorems -/

/-- Claim C1 (code evaluated at the failing input): in the part_001
revision, the joint-move command J1:200 with joint 1 at its home angle 92
and configured limits [0,180] is not rejected: processJointCommand
accepts it, jointPositions[0] becomes 200, and the only response line is
an OK status line rather than a limit error. -/
theorem C1_v1_accepts_out_of_range_angle :
    (processJointCommand_v1 initialStateV1 ("J1:200".data)).1.jointPositions.getD 0 0 = 200 ∧
    (processJointCommand_v1 initialStateV1 ("J1:200".data)).2 =
      ["OK:J1:200,J2:85,J3:45,J4:108,J5:80,J6:152"] ∧
    JOINT_MIN.getD 0 0 = 0 ∧ JOINT_MAX.getD 0 0 = 180 := by
  decide

/-- Claim C2 (code evaluated at the failing input): after the part_001
revision processes J1:200, jointPositions[0] = 200 exceeds
JOINT_MAX[0] = 180, so the invariant JOINT_MIN[j] <= jointPositions[j] <=
JOINT_MAX[j] does not survive the joint-move command path. -/
theorem C2_v1_invariant_violated :
    JOINT_MAX.getD 0 0 <
      (processJointCommand_v1 initialStateV1 ("J1:200".data)).1.jointPositions.getD 0 0 := by
  decide

/-- Claim C3, counterexample: a move request to the current angle
(J1:92 with joint 1 at 92) is accepted and installs stepDirection = -1,
while sign(target - start) = sign 0 = 0, so the installed stepDirection is
not the sign of (a - startAngle). -/
theorem C3_counterexample :
    (processCommand initialState "J1:92" 0).1.currentMovement.active = true ∧
    (processCommand initialState "J1:92" 0).1.currentMovement.targetAngle = 92 ∧
    (processCommand initialState "J1:92" 0).1.currentMovement.currentAngle = 92 ∧
    (processCommand initialState "J1:92" 0).1.currentMovement.stepDirection = -1 ∧
    Int.sign ((processCommand initialState "J1:92" 0).1.currentMovement.targetAngle -
        (processCommand initialState "J1:92" 0).1.currentMovement.currentAngle) = 0 := by
  decide

/-- Claim C8, counterexample: the STOP command does not produce exactly one
response line; it produces the emergency-stop report followed by a status
line. -/
theorem C8_counterexample :
    (processCommand initialState "STOP" 0).2.length ≠ 1 := by
  decide

/-- Claim C10, counterexample: DELETE_SEQUENCE:1X has a non-numeric
argument, yet it parses to 1 (the leading digit run), so slot 1 is
invalidated and slot 0 is left untouched, refuting the claim that every
non-numeric argument parses to 0 and invalidates slot 0. -/
theorem C10_counterexample :
    (processCommand twoValidState "DELETE_SEQUENCE:1X" 0).2 = ["OK:Sequence 1 deleted"] ∧
    ((processCommand twoValidState "DELETE_SEQUENCE:1X" 0).1.sequences.getD 0 blankSequence).valid = true ∧
    ((processCommand twoValidState "DELETE_SEQUENCE:1X" 0).1.sequences.getD 1 blankSequence).valid = false := by
  decide

/-- Claim C9, counterexample: after the playback tick that applies the
final waypoint of a one-point sequence, playback is still active with
currentStep = 1, and the next tick performs its delay read at index 1,
which equals the sequence length - the read is not restricted to indices
strictly below the length. -/
theorem C9_counterexample :
    (qualTick playState).1.currentPlayback.active = true ∧
    playbackDelayReadIndex (qualTick playState).1 = some 1 ∧
    (getSeq (qualTick playState).1 (qualTick playState).1.currentPlayback.sequenceIndex).length = 1 := by
  decide

/-- Claim C7: SET_SPEED behaviour of processSetSpeedCommand for any current
speed and any argument: an argument whose parsed value lies in [5, 200]
sets MOVE_SPEED to that value with an OK line; a parsed value outside
[5, 200] leaves MOVE_SPEED unchanged and reports the limit error. -/
theorem C7_setSpeed (speed : Int) (arg : List Char) :
    (5 ≤ toIntArduino arg ∧ toIntArduino arg ≤ 200 →
      processSetSpeedCommand speed ("SET_SPEED:".data ++ arg) =
        (toIntArduino arg, ["OK:Movement speed set to " ++ toString (toIntArduino arg) ++ " ms"])) ∧
    (toIntArduino arg < 5 ∨ 200 < toIntArduino arg →
      processSetSpeedCommand speed ("SET_SPEED:".data ++ arg) =
        (speed, ["ERROR:Speed must be between 5 and 200 ms"])) := by
  have hidx : indexOfChar ("SET_SPEED:".data ++ arg) ':' = 9 := rfl
  have hdrop : ("SET_SPEED:".data ++ arg).drop ((9 : Int).toNat + 1) = arg := rfl
  constructor
  · intro h
    have h5 : ¬(toIntArduino arg < 5 ∨ 200 < toIntArduino arg) := by omega
    simp only [processSetSpeedCommand, hidx, hdrop]
    rw [if_neg (by decide), if_neg h5]
  · intro h
    simp only [processSetSpeedCommand, hidx, hdrop]
    rw [if_neg (by decide), if_pos h]

/-- Witness for C7: SET_SPEED:5 succeeds and sets the speed to 5, after
which SET_SPEED:250 fails with the limit error and the speed remains 5. -/
theorem C7_setSpeed_witness :
    processSetSpeedCommand 15 ("SET_SPEED:".data ++ "5".data) = (5, ["OK:Movement speed set to 5 ms"]) ∧
    processSetSpeedCommand 5 ("SET_SPEED:".data ++ "250".data) = (5, ["ERROR:Speed must be between 5 and 200 ms"]) := by
  constructor
  · exact ((C7_setSpeed 15 ("5".data)).1 (by decide)).trans (by decide)
  · exact (C7_setSpeed 5 ("250".data)).2 (by decide)

/-- Claim C6: while a motion is active on joint j, a parsed joint command
targeting the same joint is rejected with the busy error and the whole
state - including the installed MotionState - is left unchanged. -/
theorem C6_busy_reject (s : ArmState) (cmd : List Char) (j a : Int)
    (hp : parseJointCommand cmd = .ok (j, a))
    (hact : s.currentMovement.active = true)
    (hj : s.currentMovement.jointIndex = j) :
    processJointCommand s cmd = (s, ["ERROR:Joint already moving, wait for completion"]) := by
  unfold processJointCommand
  rw [hp]
  simp [hact, hj]

/-- Witness for C6: with an active motion on joint 0, the command J1:90 is
rejected as busy and the state is unchanged. -/
theorem C6_busy_reject_witness :
    processJointCommand busyState ("J1:90".data) =
      (busyState, ["ERROR:Joint already moving, wait for completion"]) :=
  C6_busy_reject busyState ("J1:90".data) 0 90 rfl (by decide) (by decide)

set_option maxHeartbeats 1000000 in
/-- Claim C4: after the STOP handler completes, the process-wide interlock
flag is false again, and no other command handler ever leaves it set, so
every subsequently processed command is evaluated with the interlock
clear. -/
theorem C4_stop_pulse (s : ArmState) (now : Nat) (input : String) :
    (processCommand s "STOP" now).1.emergencyStop = false ∧
    (s.emergencyStop = false → (processCommand s input now).1.emergencyStop = false) := by
  constructor
  · rfl
  · intro h
    unfold processCommand
    dsimp only
    set c : List Char := upperChars (trimChars input.data) with hc
    split_ifs <;>
      first
        | exact h
        | rfl
        | (rw [estop_processJointCommand]; exact h)
        | (rw [estop_processRecordStartCommand]; exact h)
        | (rw [estop_processPlaySequenceCommand]; exact h)
        | (rw [estop_processDeleteSequenceCommand]; exact h)

/-- Witness for C4: after STOP at the initial state the flag is clear, and
processing STATUS from a clear-flag state leaves it clear. -/
theorem C4_stop_pulse_witness :
    (processCommand initialState "STOP" 0).1.emergencyStop = false ∧
    (processCommand initialState "STATUS" 0).1.emergencyStop = false :=
  ⟨(C4_stop_pulse initialState 0 "STATUS").1, (C4_stop_pulse initialState 0 "STATUS").2 rfl⟩

/-- Claim C8 (amended): response line counts per command are not uniformly
one: the empty line yields none, STOP yields two (stop report plus
status), STATUS yields one, and LIST_SEQUENCES yields one header line
plus one line per valid slot. -/
theorem C8_response_counts (s : ArmState) (now : Nat) :
    (processCommand s "" now).2 = [] ∧
    (processCommand s "STOP" now).2.length = 2 ∧
    (processCommand s "STATUS" now).2.length = 1 ∧
    (processCommand s "LIST_SEQUENCES" now).2.length =
      1 + ((List.range MAX_SEQUENCES).filter
          (fun i => (s.sequences.getD i blankSequence).valid)).length := by
  refine ⟨rfl, rfl, rfl, ?_⟩
  show (listSequences s).length = _
  simp [listSequences]
  omega

/-- Claim C10 (amended): a DELETE_SEQUENCE argument that toInt-parses to 0
(in particular any argument with no leading digit run) passes the range
check, invalidates slot 0, and reports success - it is not rejected as a
parse error. -/
theorem C10_delete_parses_to_zero (s : ArmState) (arg : List Char)
    (h : toIntArduino arg = 0) :
    processDeleteSequenceCommand s ("DELETE_SEQUENCE:".data ++ arg) =
      ({ s with sequences := s.sequences.set 0 (Sequence.mk (getSeq s 0).name (getSeq s 0).points 0 false) },
        ["OK:Sequence 0 deleted"]) := by
  have hidx : indexOfChar ("DELETE_SEQUENCE:".data ++ arg) ':' = 15 := rfl
  have hdrop : ("DELETE_SEQUENCE:".data ++ arg).drop ((15 : Int).toNat + 1) = arg := rfl
  unfold processDeleteSequenceCommand
  rw [hidx]
  dsimp only
  rw [hdrop, h]
  norm_num [getSeq, MAX_SEQUENCES]
  rfl

/-- Witness for C10 (amended): DELETE_SEQUENCE:PICK (argument with no
digits) deletes slot 0 and reports success. -/
theorem C10_delete_parses_to_zero_witness :
    processDeleteSequenceCommand twoValidState ("DELETE_SEQUENCE:".data ++ "PICK".data) =
      ({ twoValidState with sequences := twoValidState.sequences.set 0 (Sequence.mk (getSeq twoValidState 0).name (getSeq twoValidState 0).points 0 false) },
        ["OK:Sequence 0 deleted"]) :=
  C10_delete_parses_to_zero twoValidState ("PICK".data) (by decide)

/-- Claim C9 (amended): startSequencePlayback establishes, and every
playback tick preserves, currentStep <= length of the playing sequence;
under that invariant the delay read of a tick is performed at an index at
most the sequence length (the completion tick reads exactly index =
length, see the counterexample), never beyond it. -/
theorem C9_read_bound (s : ArmState) (k : Int) (now : Nat) :
    ((startSequencePlayback s k now).2 = true → 0 ≤ (getSeq s k).length →
        PlaybackInv (startSequencePlayback s k now).1) ∧
    (PlaybackInv s → PlaybackInv (updateSequencePlayback s now).1) ∧
    (PlaybackInv s → ∀ i : Int, playbackDelayReadIndex s = some i →
        i ≤ (getSeq s s.currentPlayback.sequenceIndex).length) := by
  refine ⟨?_, ?_, ?_⟩
  · intro hok hlen
    unfold startSequencePlayback at hok ⊢
    split_ifs at hok ⊢ with h1 h2 h3 h4
    all_goals simp_all [PlaybackInv, getSeq]
  · intro hinv
    unfold updateSequencePlayback
    dsimp only
    split_ifs with h1 h2 h3 h4 h5
    · intro ha
      simp at ha
    · exact hinv
    · exact hinv
    · intro ha
      simp at ha
    · simp only [PlaybackInv]
      intro ha
      obtain ⟨hc0, hcle⟩ := hinv ha
      simp only [getSeq] at hcle h5 ⊢
      omega
    · exact hinv
  · intro hinv i hi
    unfold playbackDelayReadIndex at hi
    split_ifs at hi with h1 h2
    have ha : s.currentPlayback.active = true := by
      rcases not_or.mp h1 with ⟨ha, -⟩
      simpa using ha
    obtain ⟨-, hle⟩ := hinv ha
    obtain rfl : s.currentPlayback.currentStep = i := by
      simpa using hi
    exact hle

/-- Witness for C9 (amended): the invariant holds after starting playback
of the demo one-point sequence, and the tick after the final waypoint
reads an index bounded by the sequence length. -/
theorem C9_read_bound_witness :
    PlaybackInv (startSequencePlayback demoState 0 0).1 ∧
    (∀ i : Int, playbackDelayReadIndex (qualTick playState).1 = some i →
      i ≤ (getSeq (qualTick playState).1 (qualTick playState).1.currentPlayback.sequenceIndex).length) :=
  ⟨(C9_read_bound demoState 0 0).1 (by decide) (by decide),
   (C9_read_bound (qualTick playState).1 0 0).2.2 (by decide)⟩

/-- Claim C3 (amended): an accepted in-range move request on joint j
installs MotionState (active, j, a, startAngle, d) with d = 1 when
a > startAngle and d = -1 otherwise (d agrees with sign(a - startAngle)
whenever a differs from startAngle); each qualifying tick after the first
changes the position by one degree, and after natAbs(a - start) + 1
qualifying ticks the position is exactly a and the motion has
deactivated (on the tick at which currentAngle equals targetAngle). -/
theorem C3_move (s : ArmState) (j a start d : Int) (n : Nat) (s0 : ArmState)
    (hestop : s.emergencyStop = false)
    (hj0 : 0 ≤ j) (hj6 : j < 6)
    (hlen : s.jointPositions.length = 6)
    (hmin : JOINT_MIN.getD j.toNat 0 ≤ a) (hmax : a ≤ JOINT_MAX.getD j.toNat 0)
    (hstart : start = s.jointPositions.getD j.toNat 0)
    (hd : d = if start < a then 1 else -1)
    (hn : n = (a - start).natAbs)
    (hs0 : s0 = (startServoMovement s j a).1) :
    s0.currentMovement = ServoMovement.mk true j a start d ∧
    (∀ k : Nat, 1 ≤ k → k ≤ n →
      (runMove s0 k).currentMovement.active = true ∧
      (runMove s0 k).jointPositions.getD j.toNat 0 = start + d * ((k : Int) - 1)) ∧
    (runMove s0 (n + 1)).currentMovement.active = false ∧
    (runMove s0 (n + 1)).jointPositions.getD j.toNat 0 = a := by
  have hs0' : s0 = { s with
      currentMovement := ServoMovement.mk true j a start d, movementInProgress := true } := by
    rw [hs0]
    unfold startServoMovement
    rw [if_neg (by rw [hestop]; simpa using by omega)]
    rw [if_neg (by omega)]
    rw [hd, hstart]
  have hj6' : j.toNat < 6 := by omega
  have hcm : s0.currentMovement = ServoMovement.mk true j a start d := by rw [hs0']
  have hin0 : Inflight s0 j a d := by
    refine ⟨?_, ?_, ?_, ?_, ?_, ?_⟩ <;> rw [hs0'] <;> first | rfl | exact hestop | exact hlen
  have hca0 : s0.currentMovement.currentAngle = start := by rw [hcm]
  have hd' : d = 1 ∨ d = -1 := by
    rw [hd]; split_ifs <;> simp
  have hna : a = start + d * n := by
    rw [hd, hn]
    split_ifs with hlt
    · have : ((a - start).natAbs : Int) = a - start := Int.natAbs_of_nonneg (by omega)
      rw [this]; ring
    · have : ((a - start).natAbs : Int) = -(a - start) := by
        rw [← Int.natAbs_neg]
        exact Int.natAbs_of_nonneg (by omega)
      rw [this]; ring
  have hinv := runMove_inv s0 j a d start n hin0 hj0 hj6 hca0 hd' hna
  have hjp0 : s0.jointPositions = s.jointPositions := by rw [hs0']
  refine ⟨hcm, ?_, ?_⟩
  · intro k hk1 hkn
    obtain ⟨hin, hcur, hjp⟩ := hinv k hkn
    refine ⟨hin.1, ?_⟩
    rw [hjp, if_neg (by omega), hjp0, getD_set_self _ _ _ _ (by rw [hlen]; exact hj6')]
  · obtain ⟨hin, hcur, hjp⟩ := hinv n (le_refl n)
    have hstep := tick_reach (runMove s0 n) j a d hin hj0 hj6 (by rw [hcur, hna])
    have hrm : runMove s0 (n + 1) =
        (updateServoMovement (runMove s0 n) ((runMove s0 n).lastMovementTime + MOVEMENT_INTERVAL)).1 := rfl
    rw [hrm, hstep]
    refine ⟨rfl, ?_⟩
    show ((runMove s0 n).jointPositions.set j.toNat (runMove s0 n).currentMovement.currentAngle).getD j.toNat 0 = a
    rw [getD_set_self _ _ _ _ (by rw [hin.2.2.2.2.2]; exact hj6'), hcur, ← hna]

/-- Witness for C3 (amended): moving joint 1 from home angle 92 to 94
installs stepDirection 1, holds 92 after the first qualifying tick, and
finishes at exactly 94, deactivated, after 3 qualifying ticks. -/
theorem C3_move_witness :
    (startServoMovement initialState 0 94).1.currentMovement = ServoMovement.mk true 0 94 92 1 ∧
    (runMove (startServoMovement initialState 0 94).1 1).jointPositions.getD 0 0 = 92 ∧
    (runMove (startServoMovement initialState 0 94).1 3).currentMovement.active = false ∧
    (runMove (startServoMovement initialState 0 94).1 3).jointPositions.getD 0 0 = 94 := by
  have h := C3_move initialState 0 94 92 1 2 ((startServoMovement initialState 0 94).1)
    rfl (by decide) (by decide) (by decide) (by decide) (by decide)
    (by decide) (by decide) (by decide) rfl
  exact ⟨h.1, ((h.2.1 1 (by decide) (by decide)).2).trans (by decide), h.2.2.1, h.2.2.2⟩

/-- Claim C5: starting playback of a valid non-empty sequence succeeds
with the interlock clear and the engines idle; each subsequent qualifying
tick applies one waypoint in recorded order, overwriting all six joint
positions with that waypoint pose and incrementing currentStep by one,
and the tick after the final waypoint deactivates playback and reports
completion (followed by a status line). -/
theorem C5_playback (s : ArmState) (k : Int) (seq : Sequence) (n : Nat) (now : Nat)
    (hk0 : 0 ≤ k) (hk2 : k < (MAX_SEQUENCES : Int))
    (hseq : getSeq s k = seq)
    (hvalid : seq.valid = true)
    (hlen : seq.length = (n : Int)) (hn : 1 ≤ n)
    (hmov : s.currentMovement.active = false)
    (hpb : s.currentPlayback.active = false)
    (hes : s.emergencyStop = false)
    (hjp : s.jointPositions.length = 6)
    (hpts : ∀ m : Nat, m < n → (seq.points.getD m blankPoint).joints.length = 6) :
    (startSequencePlayback s k now).2 = true ∧
    (∀ i : Nat, i < n →
      (runPlay (startSequencePlayback s k now).1 (i + 1)).jointPositions =
        (seq.points.getD i blankPoint).joints ∧
      (runPlay (startSequencePlayback s k now).1 (i + 1)).currentPlayback.currentStep = ((i : Int) + 1) ∧
      (runPlay (startSequencePlayback s k now).1 (i + 1)).currentPlayback.active = true) ∧
    (runPlay (startSequencePlayback s k now).1 (n + 1)).currentPlayback.active = false ∧
    (qualTick (runPlay (startSequencePlayback s k now).1 n)).2 =
      ["OK:Sequence " ++ toString k ++ " completed",
        statusLine (runPlay (startSequencePlayback s k now).1 (n + 1))] := by
  have hs0 : startSequencePlayback s k now =
      ({ s with currentPlayback :=
          SequencePlayback.mk true k 0 now }, true) := by
    unfold startSequencePlayback
    rw [hseq]
    rw [if_neg (by omega)]
    rw [if_neg (by simp [hvalid])]
    rw [if_neg (by omega)]
    rw [if_neg (by simp [hmov, hpb])]
  have hseq0 : getSeq ({ s with currentPlayback := SequencePlayback.mk true k 0 now }) k = seq := by
    rw [← hseq]
    exact getSeq_congr _ s k rfl
  have hinv := runPlay_inv ({ s with currentPlayback := SequencePlayback.mk true k 0 now }) k seq n
    hseq0 rfl rfl rfl hmov hes hlen hjp hpts
  refine ⟨by rw [hs0], ?_, ?_, ?_⟩
  · intro i hi
    obtain ⟨ha', hi', hc', hm', he', hs', hj'⟩ := hinv (i + 1) (by omega)
    rw [hs0]
    refine ⟨?_, ?_, ha'⟩
    · rw [hj', if_neg (by omega)]
      simp
    · rw [hc']
      push_cast
      ring
  · obtain ⟨ha', hi', hc', hm', he', hs', hj'⟩ := hinv n (le_refl n)
    have hseqn : getSeq (runPlay ({ s with currentPlayback := SequencePlayback.mk true k 0 now }) n) k = seq := by
      rw [getSeq_congr _ ({ s with currentPlayback := SequencePlayback.mk true k 0 now }) k hs', hseq0]
    have hcomp := qualTick_complete _ k seq n hseqn ha' hi' hc' hm' he' hlen
    have hrm : runPlay ({ s with currentPlayback := SequencePlayback.mk true k 0 now }) (n + 1) =
        (qualTick (runPlay ({ s with currentPlayback := SequencePlayback.mk true k 0 now }) n)).1 := rfl
    rw [hs0, hrm, hcomp.1]
  · obtain ⟨ha', hi', hc', hm', he', hs', hj'⟩ := hinv n (le_refl n)
    have hseqn : getSeq (runPlay ({ s with currentPlayback := SequencePlayback.mk true k 0 now }) n) k = seq := by
      rw [getSeq_congr _ ({ s with currentPlayback := SequencePlayback.mk true k 0 now }) k hs', hseq0]
    have hcomp := qualTick_complete _ k seq n hseqn ha' hi' hc' hm' he' hlen
    have hrm : runPlay ({ s with currentPlayback := SequencePlayback.mk true k 0 now }) (n + 1) =
        (qualTick (runPlay ({ s with currentPlayback := SequencePlayback.mk true k 0 now }) n)).1 := rfl
    rw [hs0, hcomp.2, hrm, hcomp.1]

/-- Witness for C5: playing the recorded one-point demo sequence applies
its home-pose waypoint on the first qualifying tick and completes
(deactivating playback) on the next. -/
theorem C5_playback_witness :
    (startSequencePlayback demoState 0 0).2 = true ∧
    (runPlay (startSequencePlayback demoState 0 0).1 1).jointPositions = [92, 85, 45, 108, 80, 152] ∧
    (runPlay (startSequencePlayback demoState 0 0).1 2).currentPlayback.active = false := by
  have h := C5_playback demoState 0 (demoSeq "A") 1 0 (by decide) (by decide) (by decide)
    (by decide) (by decide) (by decide) (by decide) (by decide) (by decide) (by decide)
    (by intro m hm; have hm0 : m = 0 := Nat.lt_one_iff.mp hm; subst hm0; decide)
  exact ⟨h.1, ((h.2.1 0 (by decide)).1).trans (by decide), h.2.2.1⟩
